import Mathlib

/-!
Verification of the deterministic Tamil/Tanglish order-parsing engine of the
Ai-Nuto repository.  The engine exists in two near-identical copies:
`src/controllers/billController.js` (qualifier window 16) and
`src/utils/similarity.js` (qualifier window 28, three extra aliases and an
exact-name resolver step).  Shared pieces (`TAMIL_NUMBER_MAP`,
`detectQuantityNear`, `preprocessText`) are textually identical in the two
files and are defined once below; the differing tables and parse loops are
embedded in the namespaces `BillController` and `Similarity`.

Strings are modelled as lists of Unicode code points (`List Nat`).  All
characters appearing in the engine's tables and in the inputs considered here
are in the Basic Multilingual Plane, so a JavaScript string index (UTF-16 code
unit index) coincides with the code-point index, and `String.prototype.length`
coincides with the length of the code-point list.
-/

/-- Code points of a Lean string, the model of a JavaScript (BMP) string. -/
def strUnits (s : String) : List Nat := s.data.map Char.toNat

/-- ASCII lower-casing of one code unit; the model of
`String.prototype.toLowerCase` restricted to the character inventory of this
development (ASCII letters and Tamil, which has no case). -/
def toLowerUnit (c : Nat) : Nat := if 65 ≤ c ∧ c ≤ 90 then c + 32 else c

/-- Membership in the JavaScript regular-expression class `\s`. -/
def isJsWs (c : Nat) : Bool :=
  c = 9 || c = 10 || c = 11 || c = 12 || c = 13 || c = 32 || c = 0xA0 ||
  c = 0x1680 || (0x2000 ≤ c && c ≤ 0x200A) || c = 0x2028 || c = 0x2029 ||
  c = 0x202F || c = 0x205F || c = 0x3000 || c = 0xFEFF

/-- Membership in the JavaScript regular-expression class `\d`. -/
def isDigitUnit (c : Nat) : Bool := 48 ≤ c && c ≤ 57

/-- JavaScript word character (`\w`), which `\b` is defined from:
ASCII letters, digits and underscore. -/
def isWordUnit (c : Nat) : Bool :=
  (48 ≤ c && c ≤ 57) || (65 ≤ c && c ≤ 90) || (97 ≤ c && c ≤ 122) || c = 95

/-- JavaScript line terminators, the characters the `.` class does not match. -/
def isLineTerm (c : Nat) : Bool := c = 10 || c = 13 || c = 0x2028 || c = 0x2029

/-- The explicit punctuation class of `preprocessText`:
`[.,;:!?()\[\]{}"'``~@#%^*&_=+<>/\\|-]` (listed by code point). -/
def isPunctUnit (c : Nat) : Bool :=
  c = 46 || c = 44 || c = 59 || c = 58 || c = 33 || c = 63 || c = 40 ||
  c = 41 || c = 91 || c = 93 || c = 123 || c = 125 || c = 34 || c = 39 ||
  c = 96 || c = 126 || c = 64 || c = 35 || c = 37 || c = 94 || c = 42 ||
  c = 38 || c = 95 || c = 61 || c = 43 || c = 60 || c = 62 || c = 47 ||
  c = 92 || c = 124 || c = 45

/-- The zero-width characters removed by `preprocessText`
(the class U+200B to U+200D together with U+FEFF). -/
def isZeroWidth (c : Nat) : Bool := (0x200B ≤ c && c ≤ 0x200D) || c = 0xFEFF

/-- Primary canonical composition pairs of Unicode NFC restricted to the code
points relevant to this development: the Tamil two-part vowel signs and the
Latin pair (e, COMBINING ACUTE ACCENT).  Used to model
`String.prototype.normalize` with argument NFC. -/
def composePair (a b : Nat) : Option Nat :=
  if a = 101 ∧ b = 0x301 then some 0xE9
  else if a = 0xBC6 ∧ b = 0xBBE then some 0xBCA
  else if a = 0xBC7 ∧ b = 0xBBE then some 0xBCB
  else if a = 0xBC6 ∧ b = 0xBD7 then some 0xBCC
  else if a = 0xB92 ∧ b = 0xBD7 then some 0xB94
  else none

/-- Model of `String.prototype.normalize` with argument NFC: canonical
composition of adjacent pairs.  Faithful to Unicode NFC on all texts of this
development (source tables and concrete inputs are composed already, and the
claim C8 counterexample needs only the listed pairs together with the fact
that an intervening starter such as U+200D blocks composition, which adjacency
gives for free). -/
def nfcAux : Nat → List Nat → List Nat
  | _, [] => []
  | _, [a] => [a]
  | 0, l => l
  | fuel + 1, a :: b :: rest =>
    match composePair a b with
    | some c => nfcAux fuel (c :: rest)
    | none => a :: nfcAux fuel (b :: rest)

/-- Canonical composition pass.  The fuel `l.length` bounds the recursion
(every step shortens the list by at least one), making the function reduce by
iota; the fuel never runs out. -/
def nfc (l : List Nat) : List Nat := nfcAux l.length l

/-- JavaScript `String.prototype.slice` with two non-negative arguments. -/
def sliceU (l : List Nat) (a b : Nat) : List Nat := (l.take b).drop a

/-- Digit run to its decimal value, the model of `parseInt(ds, 10)` on a
non-empty digit string. -/
def digitsVal (l : List Nat) : Nat := l.foldl (fun acc c => acc * 10 + (c - 48)) 0

/-- A consumed character range, an element of `usedRanges` (`{start, end}` in
the source; `end` is a reserved word in Lean and is called `stop`). -/
structure Span where
  start : Int
  stop : Int
deriving DecidableEq, Repr

/-- Result of `detectQuantityNear` (`{quantity, start, end}` in the source).
`start = stop = -1` encodes the default result that consumes no text. -/
structure DetectResult where
  quantity : Nat
  start : Int
  stop : Int
deriving DecidableEq, Repr

/-- Overlap check of `detectQuantityNear`:
`!usedRanges.some(r => !(e <= r.start || s >= r.end))`. -/
def isUnused (usedRanges : List Span) (s e : Int) : Bool :=
  !(usedRanges.any (fun r => !(e ≤ r.start || s ≥ r.stop)))

def collapseWsAux : Nat → List Nat → List Nat
  | _, [] => []
  | 0, l => l
  | fuel + 1, c :: rest =>
    if isJsWs c then 32 :: collapseWsAux fuel (rest.dropWhile isJsWs)
    else c :: collapseWsAux fuel rest

/-- Collapse of every run of `\s` characters to one space, the model of
`.replace(/\s+/g, ' ')`.  The fuel `l.length` bounds the recursion (each step
consumes at least one character) and never runs out. -/
def collapseWs (l : List Nat) : List Nat := collapseWsAux l.length l

/-- JavaScript `String.prototype.trim` on the character inventory used here
(its WhiteSpace and LineTerminator sets agree with `\s`). -/
def trimWs (l : List Nat) : List Nat :=
  (l.dropWhile isJsWs).reverse.dropWhile isJsWs |>.reverse

/-- Model of `preprocessText` (identical in billController.js and
similarity.js): NFC normalization, removal of zero-width characters,
punctuation to space, whitespace collapse, trim.  The source replaces each
maximal punctuation run by one space; replacing each punctuation character by
one space gives the same final string because the subsequent `\s+` collapse
merges adjacent spaces either way. -/
def preprocessUnits (input : List Nat) : List Nat :=
  trimWs (collapseWs (((nfc input).filter (fun c => !isZeroWidth c)).map
    (fun c => if isPunctUnit c then 32 else c)))

/-- The `TAMIL_NUMBER_MAP` table (identical in both files), in source order. -/
def TAMIL_NUMBER_MAP : List (List Nat × Nat) :=
  [ (strUnits "ஓர்", 1), (strUnits "ஒரு", 1),
    (strUnits "இரண்டு", 2), (strUnits "ரெண்டு", 2),
    (strUnits "மூன்று", 3), (strUnits "மூணு", 3),
    (strUnits "நான்கு", 4), (strUnits "நாலு", 4),
    (strUnits "ஐந்து", 5),
    (strUnits "ஆறு", 6), (strUnits "ஆரு", 6),
    (strUnits "ஏழு", 7),
    (strUnits "எட்டு", 8),
    (strUnits "ஒன்பது", 9),
    (strUnits "பத்து", 10) ]

/-- Stable insertion used to model the stable `Array.prototype.sort` with
comparator `(a, b) => b.length - a.length`: an element is placed after every
strictly longer word and after earlier words of equal length. -/
def insertByLen (x : List Nat × Nat) : List (List Nat × Nat) → List (List Nat × Nat)
  | [] => [x]
  | y :: ys => if x.1.length < y.1.length then y :: insertByLen x ys else x :: y :: ys

/-- The `tamilNumberWords` list of `detectQuantityNear`: the map keys sorted
longest first (stable).  The associated value is carried along, modelling the
later `TAMIL_NUMBER_MAP.get(word)` lookup (keys are distinct). -/
def tamilNumberWords : List (List Nat × Nat) :=
  TAMIL_NUMBER_MAP.foldr insertByLen []

/-- Number of trailing characters of `l` satisfying `f`. -/
def trailingCount (f : Nat → Bool) (l : List Nat) : Nat :=
  (l.reverse.takeWhile f).length

/-- Leftmost match of `/(\d+)\s*$/` on `l`: the maximal trailing whitespace
run preceded by a maximal non-empty trailing digit run.  Returns
(length of the whole match `m[0]`, parsed value of the digit group). -/
def matchTrailingNumber (l : List Nat) : Option (Nat × Nat) :=
  let sp := trailingCount isJsWs l
  let body := l.take (l.length - sp)
  let ds := trailingCount isDigitUnit body
  if ds = 0 then none
  else some (ds + sp, digitsVal (body.drop (body.length - ds)))

/-- Leftmost match of the regular expression `word\s*$` (the word is a literal)
on `l`.  Returns the length of the whole match `m[0]`. -/
def matchTrailingWord (w : List Nat) (l : List Nat) : Option Nat :=
  let sp := trailingCount isJsWs l
  let body := l.take (l.length - sp)
  if w.length ≤ body.length ∧
      (body.drop (body.length - w.length)).map toLowerUnit = w.map toLowerUnit
  then some (w.length + sp) else none

/-- Match of `/^\s*(\d+)/` on `l`: leading whitespace run, then a maximal
non-empty digit run.  Returns (whitespace length, digit-run length, value);
the whitespace length is also `l.indexOf(m[1])` since no earlier position can
start the digit string. -/
def matchLeadingNumber (l : List Nat) : Option (Nat × Nat × Nat) :=
  let sp := (l.takeWhile isJsWs).length
  let ds := ((l.drop sp).takeWhile isDigitUnit).length
  if ds = 0 then none
  else some (sp, ds, digitsVal ((l.drop sp).take ds))

/-- Match of the anchored regular expression `^\s*word` on `l`.  Returns the
length of the whole match `m[0]` (which is a prefix of `l`, so
`l.indexOf(m[0]) = 0`). -/
def matchLeadingWord (w : List Nat) (l : List Nat) : Option Nat :=
  let sp := (l.takeWhile isJsWs).length
  if w.length ≤ (l.drop sp).length ∧
      ((l.drop sp).take w.length).map toLowerUnit = w.map toLowerUnit
  then some (sp + w.length) else none

/-- The window of at most `MAX_BEFORE = 14` characters before a match start,
`text.slice(Math.max(0, matchStartIndex - 14), matchStartIndex)` (natural
subtraction models the clamp at 0). -/
def beforeWindow (text : List Nat) (matchStartIndex : Nat) : List Nat :=
  sliceU text (matchStartIndex - 14) matchStartIndex

/-- The window of at most `MAX_AFTER = 10` characters starting at a match
start, `text.slice(matchStartIndex, Math.min(text.length, matchStartIndex + 10))`.
Note the window starts at the match START index. -/
def afterWindow (text : List Nat) (matchStartIndex : Nat) : List Nat :=
  sliceU text matchStartIndex (min text.length (matchStartIndex + 10))

/-- Model of `detectQuantityNear` (textually identical in billController.js
and similarity.js).  The sequential early returns of the source are rendered
as an `Option.orElse` chain: a tier that finds its regular-expression match
but fails the `parsed > 0` or `isUnused` test falls through to the next tier,
exactly as in the source. -/
def detectQuantityNear (text : List Nat) (matchStartIndex : Nat)
    (usedRanges : List Span) : DetectResult :=
  let beforeTextFull := beforeWindow text matchStartIndex
  let afterTextFull := afterWindow text matchStartIndex
  let step1 : Option DetectResult :=
    match matchTrailingNumber beforeTextFull with
    | some m =>
      let numStart : Int := (matchStartIndex : Int) - m.1
      let numEnd : Int := matchStartIndex
      if m.2 > 0 && isUnused usedRanges numStart numEnd then
        some ⟨m.2, numStart, numEnd⟩
      else none
    | none => none
  let step2 : Option DetectResult :=
    tamilNumberWords.findSome? (fun wv =>
      match matchTrailingWord wv.1 beforeTextFull with
      | some m0len =>
        let numStart : Int := (matchStartIndex : Int) - m0len
        if isUnused usedRanges numStart matchStartIndex then
          some ⟨wv.2, numStart, matchStartIndex⟩
        else none
      | none => none)
  let step3 : Option DetectResult :=
    match matchLeadingNumber afterTextFull with
    | some m =>
      let numStart : Int := (matchStartIndex : Int) + m.1
      let numEnd : Int := numStart + m.2.1
      if m.2.2 > 0 && isUnused usedRanges numStart numEnd then
        some ⟨m.2.2, numStart, numEnd⟩
      else none
    | none => none
  let step4 : Option DetectResult :=
    tamilNumberWords.findSome? (fun wv =>
      match matchLeadingWord wv.1 afterTextFull with
      | some m0len =>
        let s : Int := matchStartIndex
        let e : Int := s + m0len
        if isUnused usedRanges s e then some ⟨wv.2, s, e⟩ else none
      | none => none)
  (((step1.orElse fun _ => step2).orElse fun _ => step3).orElse fun _ =>
    step4).getD ⟨1, -1, -1⟩

/-- Abstract syntax of the regular-expression fragment used by the parser
tables: literals, concatenation, ordered alternation, greedy option, greedy
`\s*`, greedy bounded `.{0,n}`, greedy `c+` of a single character, and the
word-boundary assertion `\b`.  All source patterns carry the `i` flag, so
literals are compared case-insensitively at match time. -/
inductive Rx where
  | eps
  | lit (c : Nat)
  | seq (a b : Rx)
  | alt (a b : Rx)
  | opt (a : Rx)
  | wsStar
  | anyUpTo (n : Nat)
  | plusCh (c : Nat)
  | wb
deriving Repr

/-- Concatenation of a pattern list. -/
def rcat (l : List Rx) : Rx := l.foldr Rx.seq Rx.eps

/-- Ordered alternation of a pattern list (first alternative preferred, as in
JavaScript). -/
def ralts : List Rx → Rx
  | [] => Rx.eps
  | [r] => r
  | r :: rs => Rx.alt r (ralts rs)

/-- Literal word pattern from a string. -/
def rstr (s : String) : Rx := rcat ((strUnits s).map Rx.lit)

/-- Is the character at position `p` a word character (out of range counts as
non-word)? -/
def isWordAt (t : List Nat) (p : Nat) : Bool :=
  match t.get? p with
  | some c => isWordUnit c
  | none => false

/-- The `\b` assertion at position `p`. -/
def wordBoundary (t : List Nat) (p : Nat) : Bool :=
  if p = 0 then isWordAt t 0 else isWordAt t (p - 1) != isWordAt t p

/-- Length of the run of characters satisfying `f` starting at position `p`. -/
def runLen (f : Nat → Bool) (t : List Nat) (p : Nat) : Nat :=
  ((t.drop p).takeWhile f).length

/-- Greedy backtracking over a character run: try the continuation after
consuming `j` characters, longest first, down to `lo` characters. -/
def tryDown (k : Nat → Option Nat) (p lo : Nat) : Nat → Option Nat
  | 0 => if lo = 0 then k p else none
  | j + 1 =>
    if lo ≤ j + 1 then (k (p + (j + 1))).orElse fun _ => tryDown k p lo j
    else none

/-- Backtracking matcher in continuation-passing style, returning the end
position of the overall match chosen by the JavaScript disambiguation policy:
leftmost alternatives first, greedy quantifiers longest first.  `t` is the
whole subject, `p` the current position, `k` the continuation. -/
def mrun (t : List Nat) : Rx → Nat → (Nat → Option Nat) → Option Nat
  | .eps, p, k => k p
  | .lit c, p, k =>
    match t.get? p with
    | some d => if toLowerUnit d = toLowerUnit c then k (p + 1) else none
    | none => none
  | .seq a b, p, k => mrun t a p (fun q => mrun t b q k)
  | .alt a b, p, k => (mrun t a p k).orElse fun _ => mrun t b p k
  | .opt a, p, k => (mrun t a p k).orElse fun _ => k p
  | .wsStar, p, k => tryDown k p 0 (runLen isJsWs t p)
  | .anyUpTo n, p, k => tryDown k p 0 (min n (runLen (fun c => !isLineTerm c) t p))
  | .plusCh c, p, k =>
    tryDown k p 1 (runLen (fun d => toLowerUnit d = toLowerUnit c) t p)
  | .wb, p, k => if wordBoundary t p then k p else none

def findFromAux (t : List Nat) (r : Rx) : Nat → Nat → Option (Nat × Nat)
  | 0, _ => none
  | fuel + 1, p =>
    match mrun t r p some with
    | some e => some (p, e)
    | none => if p < t.length then findFromAux t r fuel (p + 1) else none

/-- Leftmost match at or after position `p`: the model of a single
`regex.exec` step with `lastIndex = p`.  Returns (start, end).  The fuel
`t.length + 1 - p` covers every start position up to and including the end of
the text and never runs out (when `p > t.length` the result is `none` either
way). -/
def findFrom (t : List Nat) (r : Rx) (p : Nat) : Option (Nat × Nat) :=
  findFromAux t r (t.length + 1 - p) p

/-- Does the pattern match anywhere?  The model of `regex.test(s)`. -/
def rtest (t : List Nat) (r : Rx) : Bool := (findFrom t r 0).isSome

/-- All matches of the `while ((match = regex.exec(text)) !== null)` loop of
the source, in order: each search resumes at the end of the previous match.
Every table pattern contains a mandatory literal, so matches are never empty
and the loop advances; the fuel `t.length + 1` therefore never runs out (the
`max` guard only makes termination structural). -/
def allMatchesAux (t : List Nat) (r : Rx) : Nat → Nat → List (Nat × Nat)
  | 0, _ => []
  | fuel + 1, p =>
    match findFrom t r p with
    | none => []
    | some (s, e) => (s, e) :: allMatchesAux t r fuel (max e (s + 1))

/-- All matches of a pattern over the text, leftmost to rightmost. -/
def allMatches (t : List Nat) (r : Rx) : List (Nat × Nat) :=
  allMatchesAux t r (t.length + 1) 0

/-- A catalog entry (CatalogItem).  Only the fields read by the parsing core
are modelled: `name`, `tamilName` (optional in the source; the empty string
models absence, matching the source's `item.tamilName || ''`), and `price`.
The display-only `unit` and `category` fields are never read by the parser. -/
structure MenuItem where
  name : String
  tamilName : String
  price : Nat
deriving DecidableEq, Repr

/-- An output line of `parseOrderWithFuzzyMap`. -/
structure OrderLine where
  itemName : String
  quantity : Nat
  unitPrice : Nat
  totalPrice : Nat
deriving DecidableEq, Repr

/-- Lower-cased code units of a string, the model of
`(s || '').toLowerCase()`. -/
def lowerStr (s : String) : List Nat := (strUnits s).map toLowerUnit

/-- The resolver's `has` helper: test a pattern against the lower-cased
English and Tamil names of an item
(`contains(item.name, re) || contains(item.tamilName || '', re)`). -/
def hasRe (item : MenuItem) (re : Rx) : Bool :=
  rtest (lowerStr item.name) re || rtest (lowerStr item.tamilName) re

/-- Accumulator state of the match loop of `parseOrderWithFuzzyMap`:
the insertion-ordered `orderMap` and the `usedRanges` list. -/
structure ParseState where
  orderMap : List (String × Nat)
  usedRanges : List Span
deriving Repr

/-- The `orderMap.set(aliasKey, (orderMap.get(aliasKey) || 0) + quantity)`
update: a JavaScript Map keeps the insertion position of an existing key and
appends a new key at the end. -/
def bumpOrder (m : List (String × Nat)) (k : String) (q : Nat) : List (String × Nat) :=
  if m.any (fun kv => kv.1 = k) then
    m.map (fun kv => if kv.1 = k then (kv.1, kv.2 + q) else kv)
  else m ++ [(k, q)]

/-- A JavaScript value as far as `parseOrderWithFuzzyMap` inspects one:
the function only asks whether the input is falsy and whether it is a string. -/
inductive JSValue where
  | str (s : String)
  | nullV
  | undefinedV
  | boolV (b : Bool)
  | numV (n : Int)
  | objV
deriving DecidableEq, Repr

/-- JavaScript truthiness test `!v` for the modelled values. -/
def jsFalsy : JSValue → Bool
  | .str s => s = ""
  | .nullV => true
  | .undefinedV => true
  | .boolV b => !b
  | .numV n => n = 0
  | .objV => false

/-- The `typeof v === 'string'` test. -/
def jsIsString : JSValue → Bool
  | .str _ => true
  | _ => false

namespace AliasFinders

/-!
The per-alias `menuItems.find(predicate)` bodies of `buildMenuResolver`.
The thirteen shared finders are textually identical in billController.js and
similarity.js and are defined once; the last three occur only in
similarity.js.
-/

/-- Case 'Veg Kothu Parotta': contains `kothu\s*parotta`, not `egg|chicken`. -/
def vegKothuParotta (menuItems : List MenuItem) : Option MenuItem :=
  menuItems.find? (fun i => hasRe i (rcat [rstr "kothu", Rx.wsStar, rstr "parotta"]) &&
    !hasRe i (ralts [rstr "egg", rstr "chicken"]))

/-- Case 'Egg Kothu Parotta': contains `egg` and `kothu\s*parotta`. -/
def eggKothuParotta (menuItems : List MenuItem) : Option MenuItem :=
  menuItems.find? (fun i => hasRe i (rstr "egg") &&
    hasRe i (rcat [rstr "kothu", Rx.wsStar, rstr "parotta"]))

/-- Case 'Chicken Kothu Parotta': contains `chicken` and `kothu\s*parotta`. -/
def chickenKothuParotta (menuItems : List MenuItem) : Option MenuItem :=
  menuItems.find? (fun i => hasRe i (rstr "chicken") &&
    hasRe i (rcat [rstr "kothu", Rx.wsStar, rstr "parotta"]))

/-- Case 'Set Dosa (1 pcs)': contains `set\s*dosa`. -/
def setDosa (menuItems : List MenuItem) : Option MenuItem :=
  menuItems.find? (fun i => hasRe i (rcat [rstr "set", Rx.wsStar, rstr "dosa"]))

/-- Case 'Ghee Dosa': contains `ghee\s*dosa` or the Tamil equivalent. -/
def gheeDosa (menuItems : List MenuItem) : Option MenuItem :=
  menuItems.find? (fun i => hasRe i (rcat [rstr "ghee", Rx.wsStar, rstr "dosa"]) ||
    hasRe i (rcat [rstr "நெய்", Rx.wsStar, rstr "தோசை"]))

/-- Case 'Masala Dosa': contains `masala\s*dosa` or the Tamil equivalent. -/
def masalaDosa (menuItems : List MenuItem) : Option MenuItem :=
  menuItems.find? (fun i => hasRe i (rcat [rstr "masala", Rx.wsStar, rstr "dosa"]) ||
    hasRe i (rcat [rstr "மசாலா", Rx.wsStar, rstr "தோசை"]))

/-- Case 'Egg Dosa': contains `egg\s*dosa` or the Tamil equivalent. -/
def eggDosa (menuItems : List MenuItem) : Option MenuItem :=
  menuItems.find? (fun i => hasRe i (rcat [rstr "egg", Rx.wsStar, rstr "dosa"]) ||
    hasRe i (rcat [rstr "முட்டை", Rx.wsStar, rstr "தோசை"]))

/-- Case 'Plain Dosa': contains `\bdosa\b` and none of the excluding
qualifiers, in either script. -/
def plainDosa (menuItems : List MenuItem) : Option MenuItem :=
  menuItems.find? (fun i => hasRe i (rcat [Rx.wb, rstr "dosa", Rx.wb]) &&
    !hasRe i (ralts [rstr "masala", rstr "ghee", rstr "onion", rstr "egg",
                     rstr "uthappam", rstr "set", rstr "kal"]) &&
    !hasRe i (ralts [rstr "மசாலா", rstr "நெய்", rstr "வெங்காய", rstr "முட்டை",
                     rstr "செட்"]))

/-- Case 'Parotta (2 pcs)': contains `parotta|parota`, not `kothu|egg|chicken`. -/
def parotta2pcs (menuItems : List MenuItem) : Option MenuItem :=
  menuItems.find? (fun i => hasRe i (ralts [rstr "parotta", rstr "parota"]) &&
    !hasRe i (ralts [rstr "kothu", rstr "egg", rstr "chicken"]))

/-- Case 'Kalakki'. -/
def kalakki (menuItems : List MenuItem) : Option MenuItem :=
  menuItems.find? (fun i => hasRe i (rstr "kalakki") || hasRe i (rstr "கலகி"))

/-- Case 'Omelette'. -/
def omelette (menuItems : List MenuItem) : Option MenuItem :=
  menuItems.find? (fun i => hasRe i (rstr "omelet") || hasRe i (rstr "ஆம்லெட்"))

/-- Case 'Idly (4 pcs)'. -/
def idly4pcs (menuItems : List MenuItem) : Option MenuItem :=
  menuItems.find? (fun i => hasRe i (ralts [rstr "idli", rstr "idly"]) ||
    hasRe i (rstr "இட்லி"))

/-- Case 'Chicken Biryani'. -/
def chickenBiryani (menuItems : List MenuItem) : Option MenuItem :=
  menuItems.find? (fun i => hasRe i (rstr "chicken") &&
    hasRe i (ralts [rstr "biryani", rstr "பிரியாணி"]))

/-- Case 'Egg Parotta' (similarity.js only). -/
def eggParotta (menuItems : List MenuItem) : Option MenuItem :=
  menuItems.find? (fun i => hasRe i (rstr "egg") &&
    hasRe i (ralts [rstr "parotta", rstr "parota", rstr "porotta", rstr "barotta"]))

/-- Case 'Tea' (similarity.js only). -/
def tea (menuItems : List MenuItem) : Option MenuItem :=
  menuItems.find? (fun i => hasRe i (rcat [Rx.wb, rstr "tea", Rx.wb]) ||
    hasRe i (rstr "டீ"))

/-- Case 'Curd Rice' (similarity.js only). -/
def curdRice (menuItems : List MenuItem) : Option MenuItem :=
  menuItems.find? (fun i => hasRe i (rcat [rstr "curd", Rx.wsStar, rstr "rice"]) ||
    hasRe i (rcat [rstr "தயிர்", Rx.wsStar, ralts [rstr "சாதம்", rstr "சோறு"]]))

end AliasFinders

namespace BillController

/-- The `QUALIFIER_SKIP` table of billController.js. -/
def QUALIFIER_SKIP (aliasKey : String) : Option (List Rx) :=
  if aliasKey = "Plain Dosa" then
    some [ralts [rstr "மசாலா", rstr "மசால்", rstr "நெய்", rstr "egg",
                 rstr "முட்டை", rstr "masala", rstr "ghee"]]
  else if aliasKey = "Parotta (2 pcs)" then
    some [ralts [rstr "கொத்து", rstr "kothu", rstr "egg", rstr "முட்டை",
                 rstr "chicken", rstr "சிக்கன்"]]
  else none

/-- The kothu-word alternation `(கொத்து|குத்து|கோத்து|கொத்த)`. -/
def kothuAlt : Rx := ralts [rstr "கொத்து", rstr "குத்து", rstr "கோத்து", rstr "கொத்த"]

/-- The transliterated kothu alternation `(kothu|kuthu|koththu)`. -/
def kothuEnAlt : Rx := ralts [rstr "kothu", rstr "kuthu", rstr "koththu"]

/-- The parotta-spelling alternation `(parotta|parota|porotta|barotta)`. -/
def parottaEnAlt : Rx := ralts [rstr "parotta", rstr "parota", rstr "porotta", rstr "barotta"]

/-- The `getSynonymPatterns()` table of billController.js, in source order.
`((ஏ|எ)க்|எக|ஏக்க)` parses as the alternation of `(ஏ|எ)` followed by the two
code points of the visual cluster க் with the literals எக and ஏக்க. -/
def getSynonymPatterns : List (String × List Rx) :=
  [ ("Veg Kothu Parotta",
      [ rcat [kothuAlt, Rx.wsStar, rstr "பரோட்டா"],
        rcat [rstr "kothu", Rx.wsStar, rstr "parotta"],
        rcat [rstr "kothu", Rx.wsStar, rstr "parota"],
        rcat [rstr "kuthu", Rx.wsStar, rstr "parotta"],
        rcat [rstr "kothu", Rx.wsStar, rstr "barotta"],
        rcat [rstr "kothu", Rx.wsStar, rstr "porotta"] ]),
    ("Egg Kothu Parotta",
      [ rcat [rstr "முட்டை", Rx.wsStar, kothuAlt, Rx.wsStar, Rx.opt (rstr "பரோட்டா")],
        rcat [ralts [rcat [ralts [rstr "ஏ", rstr "எ"], rstr "க்"], rstr "எக", rstr "ஏக்க"],
              Rx.wsStar, kothuAlt, Rx.wsStar, Rx.opt (rstr "பரோட்டா")],
        rcat [rstr "அண்ட", Rx.opt (rstr "ு"), Rx.wsStar, kothuAlt, Rx.wsStar,
              Rx.opt (rstr "பரோட்டா")],
        rcat [rstr "egg", Rx.wsStar, kothuEnAlt, Rx.wsStar, Rx.opt parottaEnAlt] ]),
    ("Chicken Kothu Parotta",
      [ rcat [rstr "சிக்கன்", Rx.wsStar, kothuAlt, Rx.wsStar, Rx.opt (rstr "பரோட்டா")],
        rcat [rstr "chicken", Rx.wsStar, kothuEnAlt, Rx.wsStar, Rx.opt parottaEnAlt] ]),
    ("Set Dosa (1 pcs)",
      [ rcat [rstr "செட்", Rx.wsStar, rstr "தோசை"],
        rcat [rstr "set", Rx.wsStar, rstr "dosa"],
        rcat [rstr "set", Rx.wsStar, rstr "dosai"] ]),
    ("Ghee Dosa",
      [ rcat [rstr "நெய்", Rx.wsStar, rstr "தோசை"],
        rcat [rstr "ghee", Rx.wsStar, rstr "dosa"] ]),
    ("Masala Dosa",
      [ rcat [rstr "மசா", ralts [rstr "ல", rstr "ல்"], rstr "ா", Rx.wsStar, rstr "தோசை"],
        rcat [rstr "masala", Rx.wsStar, rstr "dosa"],
        rcat [Rx.wb, rstr "m", Rx.wsStar, rstr "dosa", Rx.wb] ]),
    ("Egg Dosa",
      [ rcat [rstr "முட்டை", Rx.wsStar, rstr "தோசை"],
        rcat [rstr "egg", Rx.wsStar, rstr "dosa"],
        rcat [rcat [ralts [rstr "ஏ", rstr "எ"], rstr "க்"], Rx.anyUpTo 12, rstr "தோசை"] ]),
    ("Plain Dosa",
      [ rstr "தோசை",
        rcat [Rx.wb, rstr "dosa", Rx.wb],
        rcat [Rx.wb, rstr "dosai", Rx.wb] ]),
    ("Parotta (2 pcs)",
      [ rcat [rstr "ப", ralts [rstr "ு", Rx.eps], rstr "ரோட்டா"],
        rcat [Rx.wb, rstr "parotta", Rx.wb],
        rcat [Rx.wb, rstr "parota", Rx.wb],
        rcat [Rx.wb, rstr "barotta", Rx.wb],
        rcat [Rx.wb, rstr "porotta", Rx.wb] ]),
    ("Kalakki", [rstr "கலக்கி", rstr "kalakki"]),
    ("Omelette",
      [ rstr "ஆம்லெட்",
        rcat [rstr "omelett", Rx.opt (rstr "e")],
        rstr "omlette",
        rstr "omlet" ]),
    ("Idly (4 pcs)",
      [ rstr "இட்லி",
        rcat [Rx.wb, rstr "idli", Rx.wb],
        rcat [Rx.wb, rstr "idly", Rx.wb],
        rcat [Rx.wb, rstr "itly", Rx.wb] ]),
    ("Chicken Biryani",
      [ rcat [rstr "சிக்கன்", Rx.wsStar, rstr "பிரியாணி"],
        rcat [rstr "chicken", Rx.wsStar, rstr "biryani"] ]) ]

/-- The window inspected by the qualifier-exclusion check of
billController.js: `text.slice(Math.max(0, match.index - 16), match.index)`. -/
def qualifierWindow (text : List Nat) (idx : Nat) : List Nat :=
  sliceU text (idx - 16) idx

/-- The `buildMenuResolver` of billController.js.  There is no exact-name
step: resolution is a switch over the alias keys, each case a
`menuItems.find(predicate)` over include/exclude pattern tests; unknown keys
resolve to nothing. -/
def buildMenuResolver (menuItems : List MenuItem) (aliasKey : String) : Option MenuItem :=
  if aliasKey = "Veg Kothu Parotta" then AliasFinders.vegKothuParotta menuItems
  else if aliasKey = "Egg Kothu Parotta" then AliasFinders.eggKothuParotta menuItems
  else if aliasKey = "Chicken Kothu Parotta" then AliasFinders.chickenKothuParotta menuItems
  else if aliasKey = "Set Dosa (1 pcs)" then AliasFinders.setDosa menuItems
  else if aliasKey = "Ghee Dosa" then AliasFinders.gheeDosa menuItems
  else if aliasKey = "Masala Dosa" then AliasFinders.masalaDosa menuItems
  else if aliasKey = "Egg Dosa" then AliasFinders.eggDosa menuItems
  else if aliasKey = "Plain Dosa" then AliasFinders.plainDosa menuItems
  else if aliasKey = "Parotta (2 pcs)" then AliasFinders.parotta2pcs menuItems
  else if aliasKey = "Kalakki" then AliasFinders.kalakki menuItems
  else if aliasKey = "Omelette" then AliasFinders.omelette menuItems
  else if aliasKey = "Idly (4 pcs)" then AliasFinders.idly4pcs menuItems
  else if aliasKey = "Chicken Biryani" then AliasFinders.chickenBiryani menuItems
  else none

/-- The qualifier-exclusion test of billController.js: does any exclusion
pattern of the alias match inside the 16-character `qualifierWindow`
(`skipQualifiers.some(re => re.test(windowText))`)? -/
def shouldSkip (text : List Nat) (aliasKey : String) (idx : Nat) : Bool :=
  match QUALIFIER_SKIP aliasKey with
  | some skips => skips.any (fun re => rtest (qualifierWindow text idx) re)
  | none => false

/-- The accepted-match step of the loop body: `detectQuantityNear`, the
conditional `usedRanges.push` and the `orderMap` update. -/
def applyQuantity (text : List Nat) (aliasKey : String) (idx : Nat)
    (st : ParseState) : ParseState :=
  let r := detectQuantityNear text idx st.usedRanges
  let used := if r.start ≥ 0 ∧ r.stop > r.start then
      st.usedRanges ++ [⟨r.start, r.stop⟩]
    else st.usedRanges
  ⟨bumpOrder st.orderMap aliasKey r.quantity, used⟩

/-- Processing of one pattern match at index `idx` for `aliasKey`: the
qualifier-exclusion test (which leaves the state untouched via `continue`),
else the accepted-match step. -/
def processMatch (text : List Nat) (aliasKey : String) (idx : Nat)
    (st : ParseState) : ParseState :=
  if shouldSkip text aliasKey idx then st else applyQuantity text aliasKey idx st

/-- All pattern-match events of the scan, in the order the source visits them:
alias keys in table order, patterns in list order, matches left to right.
Only the match start index is consumed downstream (`match.index`). -/
def matchEvents (text : List Nat) : List (String × Nat) :=
  getSynonymPatterns.flatMap (fun al =>
    al.2.flatMap (fun pat => (allMatches text pat).map (fun se => (al.1, se.1))))

/-- The whole match loop of `parseOrderWithFuzzyMap` as a fold over the match
events (regular-expression matching depends only on the text, so the events
can be precomputed; the mutable `orderMap`/`usedRanges` state is threaded). -/
def runParse (text : List Nat) : ParseState :=
  (matchEvents text).foldl (fun st ev => processMatch text ev.1 ev.2 st) ⟨[], []⟩

/-- The output-building loop of `parseOrderWithFuzzyMap`: resolve each
accumulated alias key, silently skipping keys with no catalog entry, and
price the line. -/
def buildItems (menuItems : List MenuItem) : List (String × Nat) → List OrderLine
  | [] => []
  | kv :: rest =>
    match buildMenuResolver menuItems kv.1 with
    | none => buildItems menuItems rest
    | some mi => ⟨mi.name, kv.2, mi.price, mi.price * kv.2⟩ :: buildItems menuItems rest

/-- `parseOrderWithFuzzyMap` of billController.js on an already-string input:
normalize, return nothing on an empty normalized text, otherwise scan and
aggregate.  The leading `!voiceInputText` falsy test of the source is the
`input = []` case here (the empty string is falsy). -/
def parseOrderUnits (input : List Nat) (menuItems : List MenuItem) : List OrderLine :=
  if input = [] then []
  else
    let text := preprocessUnits input
    if text = [] then []
    else buildItems menuItems (runParse text).orderMap

/-- `parseOrderWithFuzzyMap` of billController.js on an arbitrary JavaScript
value: `if (!voiceInputText || typeof voiceInputText !== 'string') return []`,
then the string path.  The function is total: no exception is raised on any
modelled input. -/
def parseOrderWithFuzzyMap (voiceInputText : JSValue) (menuItems : List MenuItem) :
    List OrderLine :=
  if jsFalsy voiceInputText || !jsIsString voiceInputText then []
  else
    match voiceInputText with
    | .str s => parseOrderUnits (strUnits s) menuItems
    | _ => []

/-- Convenience form on Lean strings. -/
def parseOrderStr (s : String) (menuItems : List MenuItem) : List OrderLine :=
  parseOrderWithFuzzyMap (.str s) menuItems

end BillController

namespace Similarity

/-- The `QUALIFIER_SKIP` table of similarity.js.  Its Parotta entry carries
three qualifier alternatives more than the billController.js copy;
`((ஏ|எ)க்+)` parses as `(ஏ|எ)` then the consonant க then one or more virama
code points U+0BCD. -/
def QUALIFIER_SKIP (aliasKey : String) : Option (List Rx) :=
  if aliasKey = "Plain Dosa" then
    some [ralts [rstr "மசாலா", rstr "மசால்", rstr "நெய்", rstr "egg",
                 rstr "முட்டை", rstr "masala", rstr "ghee"]]
  else if aliasKey = "Parotta (2 pcs)" then
    some [ralts [rstr "கொத்து", rstr "kothu", rstr "egg", rstr "முட்டை",
                 rcat [ralts [rstr "ஏ", rstr "எ"], Rx.lit 0xB95, Rx.plusCh 0xBCD],
                 rstr "ஏக்க", rstr "அண்டு", rstr "chicken", rstr "சிக்கன்"]]
  else none

/-- The `getSynonymPatterns()` table of similarity.js: the billController
table plus the Egg Parotta, Tea and Curd Rice aliases, and with the third
Masala Dosa pattern written `m\s*dosa` without word boundaries. -/
def getSynonymPatterns : List (String × List Rx) :=
  [ ("Veg Kothu Parotta",
      [ rcat [BillController.kothuAlt, Rx.wsStar, rstr "பரோட்டா"],
        rcat [rstr "kothu", Rx.wsStar, rstr "parotta"],
        rcat [rstr "kothu", Rx.wsStar, rstr "parota"],
        rcat [rstr "kuthu", Rx.wsStar, rstr "parotta"],
        rcat [rstr "kothu", Rx.wsStar, rstr "barotta"],
        rcat [rstr "kothu", Rx.wsStar, rstr "porotta"] ]),
    ("Egg Kothu Parotta",
      [ rcat [rstr "முட்டை", Rx.wsStar, BillController.kothuAlt, Rx.wsStar,
              Rx.opt (rstr "பரோட்டா")],
        rcat [ralts [rcat [ralts [rstr "ஏ", rstr "எ"], rstr "க்"], rstr "எக", rstr "ஏக்க"],
              Rx.wsStar, BillController.kothuAlt, Rx.wsStar, Rx.opt (rstr "பரோட்டா")],
        rcat [rstr "அண்ட", Rx.opt (rstr "ு"), Rx.wsStar, BillController.kothuAlt,
              Rx.wsStar, Rx.opt (rstr "பரோட்டா")],
        rcat [rstr "egg", Rx.wsStar, BillController.kothuEnAlt, Rx.wsStar,
              Rx.opt BillController.parottaEnAlt] ]),
    ("Chicken Kothu Parotta",
      [ rcat [rstr "சிக்கன்", Rx.wsStar, BillController.kothuAlt, Rx.wsStar,
              Rx.opt (rstr "பரோட்டா")],
        rcat [rstr "chicken", Rx.wsStar, BillController.kothuEnAlt, Rx.wsStar,
              Rx.opt BillController.parottaEnAlt] ]),
    ("Set Dosa (1 pcs)",
      [ rcat [rstr "செட்", Rx.wsStar, rstr "தோசை"],
        rcat [rstr "set", Rx.wsStar, rstr "dosa"],
        rcat [rstr "set", Rx.wsStar, rstr "dosai"] ]),
    ("Ghee Dosa",
      [ rcat [rstr "நெய்", Rx.wsStar, rstr "தோசை"],
        rcat [rstr "ghee", Rx.wsStar, rstr "dosa"] ]),
    ("Masala Dosa",
      [ rcat [rstr "மசா", ralts [rstr "ல", rstr "ல்"], rstr "ா", Rx.wsStar, rstr "தோசை"],
        rcat [rstr "masala", Rx.wsStar, rstr "dosa"],
        rcat [rstr "m", Rx.wsStar, rstr "dosa"] ]),
    ("Egg Dosa",
      [ rcat [rstr "முட்டை", Rx.wsStar, rstr "தோசை"],
        rcat [rstr "egg", Rx.wsStar, rstr "dosa"],
        rcat [rcat [ralts [rstr "ஏ", rstr "எ"], rstr "க்"], Rx.anyUpTo 12, rstr "தோசை"] ]),
    ("Plain Dosa",
      [ rstr "தோசை",
        rcat [Rx.wb, rstr "dosa", Rx.wb],
        rcat [Rx.wb, rstr "dosai", Rx.wb] ]),
    ("Parotta (2 pcs)",
      [ rcat [rstr "ப", ralts [rstr "ு", Rx.eps], rstr "ரோட்டா"],
        rcat [Rx.wb, rstr "parotta", Rx.wb],
        rcat [Rx.wb, rstr "parota", Rx.wb],
        rcat [Rx.wb, rstr "barotta", Rx.wb],
        rcat [Rx.wb, rstr "porotta", Rx.wb] ]),
    ("Egg Parotta",
      [ rcat [ralts [rstr "முட்டை",
                     rcat [ralts [rstr "ஏ", rstr "எ"], Rx.lit 0xB95, Rx.plusCh 0xBCD],
                     rstr "ஏக்க", rstr "அண்டு"],
              Rx.wsStar,
              Rx.opt (ralts [rstr "உடன்", rstr "ஓடு", rstr "ஒடு", rstr "தோடு",
                             rstr "த்தோடு", rstr "கூட"]),
              Rx.wsStar, rstr "பரோட்டா"],
        rcat [rstr "egg", Rx.wsStar, Rx.opt (rstr "with"), Rx.wsStar,
              BillController.parottaEnAlt],
        rcat [BillController.parottaEnAlt, Rx.wsStar, Rx.opt (rstr "with"),
              Rx.wsStar, rstr "egg"] ]),
    ("Kalakki", [rstr "கலக்கி", rstr "kalakki"]),
    ("Omelette",
      [ rstr "ஆம்லெட்",
        rcat [rstr "omelett", Rx.opt (rstr "e")],
        rstr "omlette",
        rstr "omlet" ]),
    ("Idly (4 pcs)",
      [ rstr "இட்லி",
        rcat [Rx.wb, rstr "idli", Rx.wb],
        rcat [Rx.wb, rstr "idly", Rx.wb],
        rcat [Rx.wb, rstr "itly", Rx.wb] ]),
    ("Chicken Biryani",
      [ rcat [rstr "சிக்கன்", Rx.wsStar, rstr "பிரியாணி"],
        rcat [rstr "chicken", Rx.wsStar, rstr "biryani"] ]),
    ("Tea", [rstr "டீ", rstr "tea"]),
    ("Curd Rice",
      [ rcat [rstr "தயிர்", Rx.wsStar,
              Rx.opt (ralts [rstr "சாதம்", rstr "சோறு", rstr "சா"])],
        rcat [rstr "curd", Rx.wsStar, rstr "rice"] ]) ]

/-- The window inspected by the qualifier-exclusion check of similarity.js:
`text.slice(Math.max(0, match.index - 28), match.index)`. -/
def qualifierWindow (text : List Nat) (idx : Nat) : List Nat :=
  sliceU text (idx - 28) idx

/-- The `switch (aliasKey)` statement of the similarity.js resolver, taken on
its own (reached only when the exact-name lookup found nothing). -/
def switchResolve (menuItems : List MenuItem) (aliasKey : String) : Option MenuItem :=
  if aliasKey = "Egg Parotta" then AliasFinders.eggParotta menuItems
    else if aliasKey = "Veg Kothu Parotta" then AliasFinders.vegKothuParotta menuItems
    else if aliasKey = "Egg Kothu Parotta" then AliasFinders.eggKothuParotta menuItems
    else if aliasKey = "Chicken Kothu Parotta" then AliasFinders.chickenKothuParotta menuItems
    else if aliasKey = "Set Dosa (1 pcs)" then AliasFinders.setDosa menuItems
    else if aliasKey = "Ghee Dosa" then AliasFinders.gheeDosa menuItems
    else if aliasKey = "Masala Dosa" then AliasFinders.masalaDosa menuItems
    else if aliasKey = "Egg Dosa" then AliasFinders.eggDosa menuItems
    else if aliasKey = "Plain Dosa" then AliasFinders.plainDosa menuItems
    else if aliasKey = "Parotta (2 pcs)" then AliasFinders.parotta2pcs menuItems
    else if aliasKey = "Kalakki" then AliasFinders.kalakki menuItems
    else if aliasKey = "Omelette" then AliasFinders.omelette menuItems
    else if aliasKey = "Idly (4 pcs)" then AliasFinders.idly4pcs menuItems
    else if aliasKey = "Chicken Biryani" then AliasFinders.chickenBiryani menuItems
    else if aliasKey = "Tea" then AliasFinders.tea menuItems
    else if aliasKey = "Curd Rice" then AliasFinders.curdRice menuItems
    else none

/-- The `buildMenuResolver` of similarity.js: first an exact case-insensitive
name match (`menuItems.find(mi => (mi.name || '').toLowerCase() === keyLower)`,
returned if present), then the per-alias predicate switch. -/
def buildMenuResolver (menuItems : List MenuItem) (aliasKey : String) : Option MenuItem :=
  match menuItems.find? (fun mi => lowerStr mi.name = lowerStr aliasKey) with
  | some mi => some mi
  | none => switchResolve menuItems aliasKey

/-- The qualifier-exclusion test of similarity.js, over its 28-character
`qualifierWindow`. -/
def shouldSkip (text : List Nat) (aliasKey : String) (idx : Nat) : Bool :=
  match QUALIFIER_SKIP aliasKey with
  | some skips => skips.any (fun re => rtest (qualifierWindow text idx) re)
  | none => false

/-- The accepted-match step of the similarity.js loop body (textually the
same as the billController.js one). -/
def applyQuantity (text : List Nat) (aliasKey : String) (idx : Nat)
    (st : ParseState) : ParseState :=
  let r := detectQuantityNear text idx st.usedRanges
  let used := if r.start ≥ 0 ∧ r.stop > r.start then
      st.usedRanges ++ [⟨r.start, r.stop⟩]
    else st.usedRanges
  ⟨bumpOrder st.orderMap aliasKey r.quantity, used⟩

/-- One match-event step of the similarity.js loop (identical to the
billController.js one except for the 28-character qualifier window). -/
def processMatch (text : List Nat) (aliasKey : String) (idx : Nat)
    (st : ParseState) : ParseState :=
  if shouldSkip text aliasKey idx then st else applyQuantity text aliasKey idx st

/-- All pattern-match events of the similarity.js scan, in source order. -/
def matchEvents (text : List Nat) : List (String × Nat) :=
  getSynonymPatterns.flatMap (fun al =>
    al.2.flatMap (fun pat => (allMatches text pat).map (fun se => (al.1, se.1))))

/-- The similarity.js match loop as a fold over the match events. -/
def runParse (text : List Nat) : ParseState :=
  (matchEvents text).foldl (fun st ev => processMatch text ev.1 ev.2 st) ⟨[], []⟩

/-- The output loop of the similarity.js `parseOrderWithFuzzyMap`. -/
def buildItems (menuItems : List MenuItem) : List (String × Nat) → List OrderLine
  | [] => []
  | kv :: rest =>
    match buildMenuResolver menuItems kv.1 with
    | none => buildItems menuItems rest
    | some mi => ⟨mi.name, kv.2, mi.price, mi.price * kv.2⟩ :: buildItems menuItems rest

/-- The similarity.js `parseOrderWithFuzzyMap` on the string path. -/
def parseOrderUnits (input : List Nat) (menuItems : List MenuItem) : List OrderLine :=
  if input = [] then []
  else
    let text := preprocessUnits input
    if text = [] then []
    else buildItems menuItems (runParse text).orderMap

/-- The similarity.js `parseOrderWithFuzzyMap` on an arbitrary JavaScript
value. -/
def parseOrderWithFuzzyMap (voiceInputText : JSValue) (menuItems : List MenuItem) :
    List OrderLine :=
  if jsFalsy voiceInputText || !jsIsString voiceInputText then []
  else
    match voiceInputText with
    | .str s => parseOrderUnits (strUnits s) menuItems
    | _ => []

end Similarity

/-- Specification reading of quantity tier 1 (claim C3): an Arabic-digit run
in the bounded window before the match, ending at the match start, with a
positive value, passing the unconsumed-span check. -/
def tierBeforeDigit (text : List Nat) (i : Nat) (used : List Span) : Option DetectResult :=
  match matchTrailingNumber (beforeWindow text i) with
  | some m =>
    if m.2 > 0 && isUnused used ((i : Int) - m.1) i then
      some ⟨m.2, (i : Int) - m.1, i⟩
    else none
  | none => none

/-- Specification reading of quantity tier 2 (claim C3): a Tamil number-word,
tried longest first, ending at the match start, passing the unconsumed-span
check. -/
def tierBeforeWord (text : List Nat) (i : Nat) (used : List Span) : Option DetectResult :=
  tamilNumberWords.findSome? (fun wv =>
    match matchTrailingWord wv.1 (beforeWindow text i) with
    | some m0len =>
      if isUnused used ((i : Int) - m0len) i then
        some ⟨wv.2, (i : Int) - m0len, i⟩
      else none
    | none => none)

/-- Specification reading of quantity tier 3 (claim C3): an Arabic-digit run
in the bounded window starting at the match start index, preceded only by
whitespace, with a positive value, passing the unconsumed-span check. -/
def tierAfterDigit (text : List Nat) (i : Nat) (used : List Span) : Option DetectResult :=
  match matchLeadingNumber (afterWindow text i) with
  | some m =>
    if m.2.2 > 0 && isUnused used ((i : Int) + m.1) ((i : Int) + m.1 + m.2.1) then
      some ⟨m.2.2, (i : Int) + m.1, (i : Int) + m.1 + m.2.1⟩
    else none
  | none => none

/-- Specification reading of quantity tier 4 (claim C3): a Tamil number-word,
tried longest first, at the start of the after window (up to leading
whitespace), passing the unconsumed-span check. -/
def tierAfterWord (text : List Nat) (i : Nat) (used : List Span) : Option DetectResult :=
  tamilNumberWords.findSome? (fun wv =>
    match matchLeadingWord wv.1 (afterWindow text i) with
    | some m0len =>
      if isUnused used i ((i : Int) + m0len) then
        some ⟨wv.2, i, (i : Int) + m0len⟩
      else none
    | none => none)

/-- The four-tier priority list of claim C3, in the claimed order:
before-digit, before-word, after-digit, after-word. -/
def qtyTiers (text : List Nat) (i : Nat) (used : List Span) : List (Option DetectResult) :=
  [tierBeforeDigit text i used, tierBeforeWord text i used,
   tierAfterDigit text i used, tierAfterWord text i used]

/-- Specification reading of `detectQuantityNear` (claim C3): the first tier
in the priority list that yields a candidate passing the unconsumed-span
check wins; otherwise quantity defaults to 1 with the sentinel span (-1,-1)
and no text is consumed. -/
def detectQuantityNearSpec (text : List Nat) (i : Nat) (used : List Span) : DetectResult :=
  ((qtyTiers text i used).findSome? id).getD ⟨1, -1, -1⟩

theorem findSome_four (o1 o2 o3 o4 : Option DetectResult) :
    (([o1, o2, o3, o4].findSome? id).getD ⟨1, -1, -1⟩) =
      ((((o1.orElse fun _ => o2).orElse fun _ => o3).orElse fun _ => o4).getD
        ⟨1, -1, -1⟩) := by
  cases o1 <;> cases o2 <;> cases o3 <;> cases o4 <;> rfl

/-- Disjointness of two consumed spans: one ends before the other starts. -/
def spanDisjoint (a b : Span) : Prop := a.stop ≤ b.start ∨ b.stop ≤ a.start

theorem detect_eq_tiers (t : List Nat) (i : Nat) (u : List Span) :
    detectQuantityNear t i u =
      ((((tierBeforeDigit t i u).orElse fun _ => tierBeforeWord t i u).orElse
          fun _ => tierAfterDigit t i u).orElse fun _ => tierAfterWord t i u).getD
        ⟨1, -1, -1⟩ := rfl

theorem findSome?_mem {α β : Type} (f : α → Option β) :
    ∀ (l : List α) (b : β), l.findSome? f = some b → ∃ a ∈ l, f a = some b := by
  intro l
  induction l with
  | nil => intro b h; simp [List.findSome?] at h
  | cons x xs ih =>
    intro b h
    rw [List.findSome?] at h
    cases hx : f x with
    | some v =>
      rw [hx] at h
      simp only [] at h
      exact ⟨x, List.mem_cons_self x xs, by rw [hx, h]⟩
    | none =>
      rw [hx] at h
      simp only [] at h
      obtain ⟨a, ha, hfa⟩ := ih b h
      exact ⟨a, List.mem_cons_of_mem x ha, hfa⟩

theorem tamilWords_pos : ∀ wv ∈ tamilNumberWords, 1 ≤ wv.2 := by decide

theorem tierBeforeDigit_some {t : List Nat} {i : Nat} {u : List Span} {r : DetectResult}
    (h : tierBeforeDigit t i u = some r) :
    isUnused u r.start r.stop = true ∧ 1 ≤ r.quantity := by
  unfold tierBeforeDigit at h
  split at h
  · split at h
    · cases h
      rename_i m hcond
      simp only [Bool.and_eq_true, decide_eq_true_eq] at hcond
      exact ⟨hcond.2, hcond.1⟩
    · exact absurd h (by simp)
  · exact absurd h (by simp)

theorem tierBeforeWord_some {t : List Nat} {i : Nat} {u : List Span} {r : DetectResult}
    (h : tierBeforeWord t i u = some r) :
    isUnused u r.start r.stop = true ∧ 1 ≤ r.quantity := by
  unfold tierBeforeWord at h
  obtain ⟨wv, hmem, hwv⟩ := findSome?_mem _ _ _ h
  split at hwv
  · split at hwv
    · cases hwv
      rename_i hun
      exact ⟨hun, tamilWords_pos wv hmem⟩
    · exact absurd hwv (by simp)
  · exact absurd hwv (by simp)

theorem tierAfterDigit_some {t : List Nat} {i : Nat} {u : List Span} {r : DetectResult}
    (h : tierAfterDigit t i u = some r) :
    isUnused u r.start r.stop = true ∧ 1 ≤ r.quantity := by
  unfold tierAfterDigit at h
  split at h
  · split at h
    · cases h
      rename_i m hcond
      simp only [Bool.and_eq_true, decide_eq_true_eq] at hcond
      exact ⟨hcond.2, hcond.1⟩
    · exact absurd h (by simp)
  · exact absurd h (by simp)

theorem tierAfterWord_some {t : List Nat} {i : Nat} {u : List Span} {r : DetectResult}
    (h : tierAfterWord t i u = some r) :
    isUnused u r.start r.stop = true ∧ 1 ≤ r.quantity := by
  unfold tierAfterWord at h
  obtain ⟨wv, hmem, hwv⟩ := findSome?_mem _ _ _ h
  split at hwv
  · split at hwv
    · cases hwv
      rename_i hun
      exact ⟨hun, tamilWords_pos wv hmem⟩
    · exact absurd hwv (by simp)
  · exact absurd hwv (by simp)

theorem detect_cases (t : List Nat) (i : Nat) (u : List Span) :
    detectQuantityNear t i u = ⟨1, -1, -1⟩ ∨
      (isUnused u (detectQuantityNear t i u).start (detectQuantityNear t i u).stop = true ∧
        1 ≤ (detectQuantityNear t i u).quantity) := by
  rw [detect_eq_tiers]
  cases h1 : tierBeforeDigit t i u with
  | some r => right; simp [Option.orElse]; exact tierBeforeDigit_some h1
  | none =>
    cases h2 : tierBeforeWord t i u with
    | some r => right; simp [Option.orElse]; exact tierBeforeWord_some h2
    | none =>
      cases h3 : tierAfterDigit t i u with
      | some r => right; simp [Option.orElse]; exact tierAfterDigit_some h3
      | none =>
        cases h4 : tierAfterWord t i u with
        | some r => right; simp [Option.orElse]; exact tierAfterWord_some h4
        | none => left; simp [Option.orElse]

theorem isUnused_disjoint {u : List Span} {s e : Int} (h : isUnused u s e = true) :
    ∀ r ∈ u, spanDisjoint r ⟨s, e⟩ := by
  intro r hr
  simp only [isUnused, Bool.not_eq_true', List.any_eq_false] at h
  have hh := h r hr
  simp only [Bool.not_eq_false, Bool.or_eq_true, decide_eq_true_eq] at hh
  unfold spanDisjoint
  rcases hh with h1 | h2
  · right; exact h1
  · left; exact h2

theorem detect_pos (t : List Nat) (i : Nat) (u : List Span) :
    1 ≤ (detectQuantityNear t i u).quantity := by
  rcases detect_cases t i u with h | ⟨_, h⟩
  · rw [h]
  · exact h

theorem detect_unused {t : List Nat} {i : Nat} {u : List Span}
    (h : 0 ≤ (detectQuantityNear t i u).start) :
    isUnused u (detectQuantityNear t i u).start (detectQuantityNear t i u).stop = true := by
  rcases detect_cases t i u with hd | ⟨hun, _⟩
  · rw [hd] at h; exact absurd h (by decide)
  · exact hun

theorem applyQuantity_pairwise_bc {text : List Nat} {k : String} {idx : Nat}
    {st : ParseState} (h : st.usedRanges.Pairwise spanDisjoint) :
    (BillController.applyQuantity text k idx st).usedRanges.Pairwise spanDisjoint := by
  unfold BillController.applyQuantity
  simp only []
  split
  · rename_i hcond
    apply List.pairwise_append.mpr
    refine ⟨h, List.pairwise_singleton _ _, ?_⟩
    intro a ha b hb
    simp only [List.mem_singleton] at hb
    subst hb
    exact isUnused_disjoint (detect_unused (by exact hcond.1)) a ha
  · exact h

theorem processMatch_pairwise_bc {text : List Nat} {k : String} {idx : Nat}
    {st : ParseState} (h : st.usedRanges.Pairwise spanDisjoint) :
    (BillController.processMatch text k idx st).usedRanges.Pairwise spanDisjoint := by
  unfold BillController.processMatch
  split
  · exact h
  · exact applyQuantity_pairwise_bc h

theorem runParse_pairwise_bc (text : List Nat) :
    (BillController.runParse text).usedRanges.Pairwise spanDisjoint := by
  unfold BillController.runParse
  generalize BillController.matchEvents text = evs
  have main : ∀ (evs : List (String × Nat)) (st : ParseState),
      st.usedRanges.Pairwise spanDisjoint →
      ((evs.foldl (fun st ev => BillController.processMatch text ev.1 ev.2 st)
        st).usedRanges).Pairwise spanDisjoint := by
    intro evs
    induction evs with
    | nil => intro st h; exact h
    | cons e es ih => intro st h; exact ih _ (processMatch_pairwise_bc h)
  exact main evs ⟨[], []⟩ (by simp)

theorem applyQuantity_pairwise_sim {text : List Nat} {k : String} {idx : Nat}
    {st : ParseState} (h : st.usedRanges.Pairwise spanDisjoint) :
    (Similarity.applyQuantity text k idx st).usedRanges.Pairwise spanDisjoint := by
  unfold Similarity.applyQuantity
  simp only []
  split
  · rename_i hcond
    apply List.pairwise_append.mpr
    refine ⟨h, List.pairwise_singleton _ _, ?_⟩
    intro a ha b hb
    simp only [List.mem_singleton] at hb
    subst hb
    exact isUnused_disjoint (detect_unused (by exact hcond.1)) a ha
  · exact h

theorem processMatch_pairwise_sim {text : List Nat} {k : String} {idx : Nat}
    {st : ParseState} (h : st.usedRanges.Pairwise spanDisjoint) :
    (Similarity.processMatch text k idx st).usedRanges.Pairwise spanDisjoint := by
  unfold Similarity.processMatch
  split
  · exact h
  · exact applyQuantity_pairwise_sim h

theorem runParse_pairwise_sim (text : List Nat) :
    (Similarity.runParse text).usedRanges.Pairwise spanDisjoint := by
  unfold Similarity.runParse
  generalize Similarity.matchEvents text = evs
  have main : ∀ (evs : List (String × Nat)) (st : ParseState),
      st.usedRanges.Pairwise spanDisjoint →
      ((evs.foldl (fun st ev => Similarity.processMatch text ev.1 ev.2 st)
        st).usedRanges).Pairwise spanDisjoint := by
    intro evs
    induction evs with
    | nil => intro st h; exact h
    | cons e es ih => intro st h; exact ih _ (processMatch_pairwise_sim h)
  exact main evs ⟨[], []⟩ (by simp)

theorem bumpOrder_pos {m : List (String × Nat)} {k : String} {q : Nat}
    (hq : 1 ≤ q) (h : ∀ kv ∈ m, 1 ≤ kv.2) : ∀ kv ∈ bumpOrder m k q, 1 ≤ kv.2 := by
  intro kv hkv
  unfold bumpOrder at hkv
  split at hkv
  · simp only [List.mem_map] at hkv
    obtain ⟨kv', hkv', heq⟩ := hkv
    by_cases hk : kv'.1 = k
    · rw [if_pos hk] at heq
      subst heq
      simp only []
      omega
    · rw [if_neg hk] at heq
      subst heq
      exact h kv' hkv'
  · rcases List.mem_append.mp hkv with hm | hs
    · exact h kv hm
    · simp only [List.mem_singleton] at hs
      subst hs
      exact hq

theorem processMatch_orderPos_bc {text : List Nat} {k : String} {idx : Nat}
    {st : ParseState} (h : ∀ kv ∈ st.orderMap, 1 ≤ kv.2) :
    ∀ kv ∈ (BillController.processMatch text k idx st).orderMap, 1 ≤ kv.2 := by
  unfold BillController.processMatch
  split
  · exact h
  · unfold BillController.applyQuantity
    simp only []
    exact bumpOrder_pos (detect_pos _ _ _) h

theorem runParse_orderPos_bc (text : List Nat) :
    ∀ kv ∈ (BillController.runParse text).orderMap, 1 ≤ kv.2 := by
  unfold BillController.runParse
  generalize BillController.matchEvents text = evs
  have main : ∀ (evs : List (String × Nat)) (st : ParseState),
      (∀ kv ∈ st.orderMap, 1 ≤ kv.2) →
      ∀ kv ∈ (evs.foldl (fun st ev => BillController.processMatch text ev.1 ev.2 st)
        st).orderMap, 1 ≤ kv.2 := by
    intro evs
    induction evs with
    | nil => intro st h; exact h
    | cons e es ih => intro st h; exact ih _ (processMatch_orderPos_bc h)
  exact main evs ⟨[], []⟩ (by simp)

theorem processMatch_orderPos_sim {text : List Nat} {k : String} {idx : Nat}
    {st : ParseState} (h : ∀ kv ∈ st.orderMap, 1 ≤ kv.2) :
    ∀ kv ∈ (Similarity.processMatch text k idx st).orderMap, 1 ≤ kv.2 := by
  unfold Similarity.processMatch
  split
  · exact h
  · unfold Similarity.applyQuantity
    simp only []
    exact bumpOrder_pos (detect_pos _ _ _) h

theorem runParse_orderPos_sim (text : List Nat) :
    ∀ kv ∈ (Similarity.runParse text).orderMap, 1 ≤ kv.2 := by
  unfold Similarity.runParse
  generalize Similarity.matchEvents text = evs
  have main : ∀ (evs : List (String × Nat)) (st : ParseState),
      (∀ kv ∈ st.orderMap, 1 ≤ kv.2) →
      ∀ kv ∈ (evs.foldl (fun st ev => Similarity.processMatch text ev.1 ev.2 st)
        st).orderMap, 1 ≤ kv.2 := by
    intro evs
    induction evs with
    | nil => intro st h; exact h
    | cons e es ih => intro st h; exact ih _ (processMatch_orderPos_sim h)
  exact main evs ⟨[], []⟩ (by simp)

theorem buildItems_eq_filterMap_bc (menu : List MenuItem) :
    ∀ kvs : List (String × Nat),
      BillController.buildItems menu kvs = kvs.filterMap (fun kv =>
        (BillController.buildMenuResolver menu kv.1).map
          (fun mi => ⟨mi.name, kv.2, mi.price, mi.price * kv.2⟩)) := by
  intro kvs
  induction kvs with
  | nil => rfl
  | cons kv rest ih =>
    rw [List.filterMap_cons]
    unfold BillController.buildItems
    cases hr : BillController.buildMenuResolver menu kv.1 with
    | none => simp only [hr, Option.map_none']; exact ih
    | some mi => simp only [hr, Option.map_some']; rw [ih]

theorem buildItems_eq_filterMap_sim (menu : List MenuItem) :
    ∀ kvs : List (String × Nat),
      Similarity.buildItems menu kvs = kvs.filterMap (fun kv =>
        (Similarity.buildMenuResolver menu kv.1).map
          (fun mi => ⟨mi.name, kv.2, mi.price, mi.price * kv.2⟩)) := by
  intro kvs
  induction kvs with
  | nil => rfl
  | cons kv rest ih =>
    rw [List.filterMap_cons]
    unfold Similarity.buildItems
    cases hr : Similarity.buildMenuResolver menu kv.1 with
    | none => simp only [hr, Option.map_none']; exact ih
    | some mi => simp only [hr, Option.map_some']; rw [ih]

theorem mem_buildItems_bc {menu : List MenuItem} {l : OrderLine} :
    ∀ {kvs : List (String × Nat)}, l ∈ BillController.buildItems menu kvs →
      ∃ kv ∈ kvs, l.quantity = kv.2 := by
  intro kvs
  induction kvs with
  | nil => intro h; simp [BillController.buildItems] at h
  | cons kv rest ih =>
    intro h
    unfold BillController.buildItems at h
    cases hr : BillController.buildMenuResolver menu kv.1 with
    | none =>
      rw [hr] at h
      obtain ⟨kv', hkv', hq⟩ := ih h
      exact ⟨kv', List.mem_cons_of_mem kv hkv', hq⟩
    | some mi =>
      rw [hr] at h
      rcases List.mem_cons.mp h with heq | hrest
      · subst heq
        exact ⟨kv, List.mem_cons_self kv rest, rfl⟩
      · obtain ⟨kv', hkv', hq⟩ := ih hrest
        exact ⟨kv', List.mem_cons_of_mem kv hkv', hq⟩

theorem mem_buildItems_sim {menu : List MenuItem} {l : OrderLine} :
    ∀ {kvs : List (String × Nat)}, l ∈ Similarity.buildItems menu kvs →
      ∃ kv ∈ kvs, l.quantity = kv.2 := by
  intro kvs
  induction kvs with
  | nil => intro h; simp [Similarity.buildItems] at h
  | cons kv rest ih =>
    intro h
    unfold Similarity.buildItems at h
    cases hr : Similarity.buildMenuResolver menu kv.1 with
    | none =>
      rw [hr] at h
      obtain ⟨kv', hkv', hq⟩ := ih h
      exact ⟨kv', List.mem_cons_of_mem kv hkv', hq⟩
    | some mi =>
      rw [hr] at h
      rcases List.mem_cons.mp h with heq | hrest
      · subst heq
        exact ⟨kv, List.mem_cons_self kv rest, rfl⟩
      · obtain ⟨kv', hkv', hq⟩ := ih hrest
        exact ⟨kv', List.mem_cons_of_mem kv hkv', hq⟩

theorem resolvers_agree (menu : List MenuItem) (key : String)
    (h1 : key ≠ "Egg Parotta") (h2 : key ≠ "Tea") (h3 : key ≠ "Curd Rice") :
    Similarity.switchResolve menu key = BillController.buildMenuResolver menu key := by
  by_cases k1 : key = "Veg Kothu Parotta"
  · subst k1; rfl
  by_cases k2 : key = "Egg Kothu Parotta"
  · subst k2; rfl
  by_cases k3 : key = "Chicken Kothu Parotta"
  · subst k3; rfl
  by_cases k4 : key = "Set Dosa (1 pcs)"
  · subst k4; rfl
  by_cases k5 : key = "Ghee Dosa"
  · subst k5; rfl
  by_cases k6 : key = "Masala Dosa"
  · subst k6; rfl
  by_cases k7 : key = "Egg Dosa"
  · subst k7; rfl
  by_cases k8 : key = "Plain Dosa"
  · subst k8; rfl
  by_cases k9 : key = "Parotta (2 pcs)"
  · subst k9; rfl
  by_cases k10 : key = "Kalakki"
  · subst k10; rfl
  by_cases k11 : key = "Omelette"
  · subst k11; rfl
  by_cases k12 : key = "Idly (4 pcs)"
  · subst k12; rfl
  by_cases k13 : key = "Chicken Biryani"
  · subst k13; rfl
  unfold Similarity.switchResolve BillController.buildMenuResolver
  rw [if_neg h1, if_neg k1, if_neg k2, if_neg k3, if_neg k4, if_neg k5, if_neg k6,
    if_neg k7, if_neg k8, if_neg k9, if_neg k10, if_neg k11, if_neg k12, if_neg k13,
    if_neg h2, if_neg h3]
  rw [if_neg k1, if_neg k2, if_neg k3, if_neg k4, if_neg k5, if_neg k6, if_neg k7,
    if_neg k8, if_neg k9, if_neg k10, if_neg k11, if_neg k12, if_neg k13]

theorem parse_line_pos_bc {v : JSValue} {menu : List MenuItem} {l : OrderLine}
    (h : l ∈ BillController.parseOrderWithFuzzyMap v menu) : 1 ≤ l.quantity := by
  unfold BillController.parseOrderWithFuzzyMap at h
  split at h
  · simp at h
  · cases v with
    | str s =>
      simp only [] at h
      unfold BillController.parseOrderUnits at h
      split at h
      · simp at h
      · simp only [] at h
        split at h
        · simp at h
        · obtain ⟨kv, hkv, hq⟩ := mem_buildItems_bc h
          rw [hq]
          exact runParse_orderPos_bc _ kv hkv
    | nullV => simp at h
    | undefinedV => simp at h
    | boolV b => simp at h
    | numV n => simp at h
    | objV => simp at h

theorem parse_line_pos_sim {v : JSValue} {menu : List MenuItem} {l : OrderLine}
    (h : l ∈ Similarity.parseOrderWithFuzzyMap v menu) : 1 ≤ l.quantity := by
  unfold Similarity.parseOrderWithFuzzyMap at h
  split at h
  · simp at h
  · cases v with
    | str s =>
      simp only [] at h
      unfold Similarity.parseOrderUnits at h
      split at h
      · simp at h
      · simp only [] at h
        split at h
        · simp at h
        · obtain ⟨kv, hkv, hq⟩ := mem_buildItems_sim h
          rw [hq]
          exact runParse_orderPos_sim _ kv hkv
    | nullV => simp at h
    | undefinedV => simp at h
    | boolV b => simp at h
    | numV n => simp at h
    | objV => simp at h

/-- C1: the claim states that for input containing a qualifier word adjacent
to a generic alias's pattern (for example "egg kothu parotta") the output
contains only the qualifier-specific item and not the generic sibling's item.
This evaluation shows the code violating that: `QUALIFIER_SKIP` has no entry
for the generic 'Veg Kothu Parotta' alias, so "egg kothu parotta" yields BOTH
a Veg Kothu Parotta line and an Egg Kothu Parotta line. -/
theorem claim_C1_qualifier_specificity_eval :
    BillController.parseOrderStr "egg kothu parotta"
      [⟨"Egg Kothu Parotta", "முட்டை கொத்து பரோட்டா", 120⟩,
       ⟨"Veg Kothu Parotta", "கொத்து பரோட்டா", 100⟩] =
    [⟨"Veg Kothu Parotta", 1, 100, 100⟩, ⟨"Egg Kothu Parotta", 1, 120, 120⟩] := by decide

/-- C2: a span accepted by `detectQuantityNear` (one with a non-negative
start) always passes the unconsumed-span check against the given consumed
set, and consequently the `usedRanges` list accumulated by a parse call is
pairwise disjoint in both parser variants: no character offset belongs to two
consumed quantity spans. -/
theorem claim_C2_used_ranges_disjoint :
    (∀ (text : List Nat) (i : Nat) (used : List Span),
      0 ≤ (detectQuantityNear text i used).start →
      isUnused used (detectQuantityNear text i used).start
        (detectQuantityNear text i used).stop = true) ∧
    (∀ text : List Nat, ((BillController.runParse text).usedRanges).Pairwise spanDisjoint) ∧
    (∀ text : List Nat, ((Similarity.runParse text).usedRanges).Pairwise spanDisjoint) :=
  ⟨fun _ _ _ h => detect_unused h, runParse_pairwise_bc, runParse_pairwise_sim⟩

/-- Witness for C2 at concrete inputs: "2 dosa" produces a consumed span with
non-negative start that is unused, and the parse of "2 தோசை 3 dosa"
accumulates a pairwise-disjoint `usedRanges`. -/
theorem claim_C2_witness :
    (0 ≤ (detectQuantityNear (strUnits "2 dosa") 2 []).start ∧
     isUnused [] (detectQuantityNear (strUnits "2 dosa") 2 []).start
       (detectQuantityNear (strUnits "2 dosa") 2 []).stop = true) ∧
    ((BillController.runParse (strUnits "2 தோசை 3 dosa")).usedRanges).Pairwise spanDisjoint :=
  ⟨⟨by decide, claim_C2_used_ranges_disjoint.1 _ _ _ (by decide)⟩,
   claim_C2_used_ranges_disjoint.2.1 _⟩

/-- C3: `detectQuantityNear` checks quantity candidates in exactly the
claimed priority order — before-digit, before-word (longest first),
after-digit, after-word — returning the first tier that yields a candidate
passing the unconsumed-span check (digit tiers additionally require a
positive value, compare C10), and returning quantity 1 with span (-1,-1)
when no tier succeeds. -/
theorem claim_C3_priority_order :
    ∀ (text : List Nat) (i : Nat) (used : List Span),
      detectQuantityNear text i used = detectQuantityNearSpec text i used := by
  intro t i u
  rw [detect_eq_tiers]
  unfold detectQuantityNearSpec qtyTiers
  rw [findSome_four]

/-- C4: the claim states the after-the-item search is anchored at the match
END.  The code anchors it at the match START (`afterWindow` slices from
`matchStartIndex`), so for "dosa 3" — where a digit run of value 3 does start
right after the match end 4, witness the second conjunct — no after-quantity
is found and the order line defaults to quantity 1. -/
theorem claim_C4_after_anchor_eval :
    detectQuantityNear (strUnits "dosa 3") 0 [] = ⟨1, -1, -1⟩ ∧
    matchLeadingNumber (sliceU (strUnits "dosa 3") 4 6) = some (1, 1, 3) ∧
    BillController.parseOrderStr "dosa 3" [⟨"Dosa", "தோசை", 30⟩] =
      [⟨"Dosa", 1, 30, 30⟩] := by decide

/-- Counterexample to C5 as stated: for a catalog entry whose name equals the
AliasKey case-insensitively but whose Tamil name contains "egg", the
similarity.js resolver returns the entry through its exact-name step while
the billController.js resolver — which the claim also covers — has no
exact-name step and returns nothing. -/
theorem claim_C5_counterexample :
    lowerStr ((⟨"Veg Kothu Parotta", "egg", 50⟩ : MenuItem)).name =
      lowerStr "Veg Kothu Parotta" ∧
    Similarity.buildMenuResolver [⟨"Veg Kothu Parotta", "egg", 50⟩] "Veg Kothu Parotta" =
      some ⟨"Veg Kothu Parotta", "egg", 50⟩ ∧
    BillController.buildMenuResolver [⟨"Veg Kothu Parotta", "egg", 50⟩]
      "Veg Kothu Parotta" = none :=
  ⟨by decide, by decide, by decide⟩

/-- C5 as amended: the similarity.js resolver is exact-name-first with a
per-alias predicate fallback; the billController.js resolver consists of the
predicate switch only, agreeing with the similarity.js fallback on every
alias key except the three aliases found only in similarity.js; and in both
variants an alias key that resolves to nothing is silently omitted from the
output (`filterMap`), never an error. -/
theorem claim_C5_amended :
    (∀ (menu : List MenuItem) (key : String),
      Similarity.buildMenuResolver menu key =
        ((menu.find? (fun mi => lowerStr mi.name = lowerStr key)).orElse
          (fun _ => Similarity.switchResolve menu key))) ∧
    (∀ (menu : List MenuItem) (key : String),
      key ≠ "Egg Parotta" → key ≠ "Tea" → key ≠ "Curd Rice" →
      Similarity.switchResolve menu key = BillController.buildMenuResolver menu key) ∧
    (∀ (menu : List MenuItem) (kvs : List (String × Nat)),
      BillController.buildItems menu kvs = kvs.filterMap (fun kv =>
        (BillController.buildMenuResolver menu kv.1).map
          (fun mi => ⟨mi.name, kv.2, mi.price, mi.price * kv.2⟩)) ∧
      Similarity.buildItems menu kvs = kvs.filterMap (fun kv =>
        (Similarity.buildMenuResolver menu kv.1).map
          (fun mi => ⟨mi.name, kv.2, mi.price, mi.price * kv.2⟩))) := by
  refine ⟨?_, resolvers_agree, ?_⟩
  · intro menu key
    unfold Similarity.buildMenuResolver
    cases menu.find? (fun mi => lowerStr mi.name = lowerStr key) <;> rfl
  · intro menu kvs
    exact ⟨buildItems_eq_filterMap_bc menu kvs, buildItems_eq_filterMap_sim menu kvs⟩

/-- Witness for C5 at a concrete key and catalog: for 'Plain Dosa' (not one
of the three similarity-only aliases) the two resolvers agree. -/
theorem claim_C5_witness :
    Similarity.switchResolve [⟨"Dosa", "தோசை", 30⟩] "Plain Dosa" =
      BillController.buildMenuResolver [⟨"Dosa", "தோசை", 30⟩] "Plain Dosa" :=
  claim_C5_amended.2.1 _ _ (by decide) (by decide) (by decide)

/-- C6: an input mentioning the same alias twice with quantities 2 and 3
("2 தோசை 3 dosa", both mentions matching 'Plain Dosa' patterns) yields a
single order line with quantity 5. -/
theorem claim_C6_repeat_sum :
    BillController.parseOrderStr "2 தோசை 3 dosa" [⟨"Dosa", "தோசை", 30⟩] =
      [⟨"Dosa", 5, 30, 150⟩] := by decide

/-- C7: for every catalog, the empty string, null, and every non-string
JavaScript value parse to the empty order list in both variants; the
embedding is a total function, so no exception is raised on any modelled
input. -/
theorem claim_C7_malformed_input :
    ∀ menu : List MenuItem,
      BillController.parseOrderWithFuzzyMap (.str "") menu = [] ∧
      Similarity.parseOrderWithFuzzyMap (.str "") menu = [] ∧
      BillController.parseOrderWithFuzzyMap .nullV menu = [] ∧
      Similarity.parseOrderWithFuzzyMap .nullV menu = [] ∧
      (∀ v : JSValue, jsIsString v = false →
        BillController.parseOrderWithFuzzyMap v menu = [] ∧
        Similarity.parseOrderWithFuzzyMap v menu = []) := by
  intro menu
  refine ⟨rfl, rfl, rfl, rfl, ?_⟩
  intro v hv
  cases v with
  | str s => simp [jsIsString] at hv
  | nullV => exact ⟨rfl, rfl⟩
  | undefinedV => exact ⟨rfl, rfl⟩
  | boolV b =>
    constructor <;>
      simp [BillController.parseOrderWithFuzzyMap, Similarity.parseOrderWithFuzzyMap,
        jsIsString]
  | numV n =>
    constructor <;>
      simp [BillController.parseOrderWithFuzzyMap, Similarity.parseOrderWithFuzzyMap,
        jsIsString]
  | objV => exact ⟨rfl, rfl⟩

/-- Witness for C7 at concrete inputs: the empty string, null, and the
non-string number 7. -/
theorem claim_C7_witness :
    BillController.parseOrderWithFuzzyMap (.str "") [] = [] ∧
    BillController.parseOrderWithFuzzyMap .nullV [] = [] ∧
    jsIsString (JSValue.numV 7) = false ∧
    BillController.parseOrderWithFuzzyMap (.numV 7) [] = [] :=
  ⟨(claim_C7_malformed_input []).1, (claim_C7_malformed_input []).2.2.1,
   by decide, ((claim_C7_malformed_input []).2.2.2.2 _ (by decide)).1⟩

/-- C8 as amended: for a text that is a fixed point of the normalizer,
parsing the normalized text equals parsing the text, in both variants (the
claim's primary sentence).  The claim's "equivalently, preprocessText is
idempotent on every string" gloss is refuted by `claim_C8_counterexample`. -/
theorem claim_C8_amended :
    ∀ (t : List Nat) (menu : List MenuItem), preprocessUnits t = t →
      BillController.parseOrderUnits (preprocessUnits t) menu =
        BillController.parseOrderUnits t menu ∧
      Similarity.parseOrderUnits (preprocessUnits t) menu =
        Similarity.parseOrderUnits t menu := by
  intro t menu h
  rw [h]
  exact ⟨rfl, rfl⟩

/-- Counterexample to the C8 gloss: `preprocessText` is not idempotent on
every string.  On the input e, U+200D (zero-width joiner), U+0301 (combining
acute accent), the first pass removes the joiner, after which the second
pass's NFC step composes e with the accent into é — changing the string. -/
theorem claim_C8_counterexample :
    preprocessUnits (preprocessUnits [101, 0x200D, 0x301]) ≠
      preprocessUnits [101, 0x200D, 0x301] := by decide

/-- Witness for C8 at a concrete fixed point: "dosa". -/
theorem claim_C8_witness :
    preprocessUnits (strUnits "dosa") = strUnits "dosa" ∧
    BillController.parseOrderUnits (preprocessUnits (strUnits "dosa")) [] =
      BillController.parseOrderUnits (strUnits "dosa") [] :=
  ⟨by decide, (claim_C8_amended (strUnits "dosa") [] (by decide)).1⟩

/-- C9 as amended: inside the text, the qualifier-exclusion check inspects
the 16 characters immediately preceding the match in billController.js and
28 in similarity.js (not 14 as claimed), while the quantity search inspects
14 characters before and 10 after the match start in both variants. -/
theorem claim_C9_amended :
    ∀ (text : List Nat) (idx : Nat), idx ≤ text.length →
      (BillController.qualifierWindow text idx).length = min 16 idx ∧
      (Similarity.qualifierWindow text idx).length = min 28 idx ∧
      (beforeWindow text idx).length = min 14 idx ∧
      (afterWindow text idx).length = min 10 (text.length - idx) := by
  intro t i h
  refine ⟨?_, ?_, ?_, ?_⟩ <;>
    · simp only [BillController.qualifierWindow, Similarity.qualifierWindow, beforeWindow,
        afterWindow, sliceU, List.length_drop, List.length_take]
      omega

/-- Counterexample to C9 as stated: in "egg bbbbbbbbbbb parotta" the
qualifier "egg" occupies offsets 0-2, outside the last 14 characters before
the Parotta match at offset 16 (second conjunct) yet inside the inspected
16-character window (first conjunct), and the match is indeed skipped: the
parse output is empty.  Under a 14-character window the Parotta line would
have been emitted. -/
theorem claim_C9_counterexample :
    ((BillController.QUALIFIER_SKIP "Parotta (2 pcs)").getD []).any (fun re =>
      rtest (BillController.qualifierWindow (strUnits "egg bbbbbbbbbbb parotta") 16) re)
      = true ∧
    ((BillController.QUALIFIER_SKIP "Parotta (2 pcs)").getD []).any (fun re =>
      rtest (sliceU (strUnits "egg bbbbbbbbbbb parotta") 2 16) re) = false ∧
    BillController.parseOrderStr "egg bbbbbbbbbbb parotta" [⟨"Parotta", "", 25⟩] = [] := by
  refine ⟨by decide, by decide, by decide⟩

/-- Witness for C9 at a concrete text and offset. -/
theorem claim_C9_witness :
    (BillController.qualifierWindow (strUnits "egg kothu parotta") 10).length = min 16 10 ∧
    (beforeWindow (strUnits "egg kothu parotta") 10).length = min 14 10 :=
  ⟨(claim_C9_amended (strUnits "egg kothu parotta") 10 (by decide)).1,
   (claim_C9_amended (strUnits "egg kothu parotta") 10 (by decide)).2.2.1⟩

/-- C10: `detectQuantityNear` always returns a quantity of at least 1, every
order line emitted by either parser variant has quantity at least 1, and a
digit run parsing to 0 adjacent to a match is rejected: "0 dosa" falls
through every tier (default result, no span consumed) and the emitted line
has quantity 1. -/
theorem claim_C10_positive_quantity :
    (∀ (text : List Nat) (i : Nat) (used : List Span),
      1 ≤ (detectQuantityNear text i used).quantity) ∧
    (∀ (v : JSValue) (menu : List MenuItem) (l : OrderLine),
      l ∈ BillController.parseOrderWithFuzzyMap v menu → 1 ≤ l.quantity) ∧
    (∀ (v : JSValue) (menu : List MenuItem) (l : OrderLine),
      l ∈ Similarity.parseOrderWithFuzzyMap v menu → 1 ≤ l.quantity) ∧
    detectQuantityNear (strUnits "0 dosa") 2 [] = ⟨1, -1, -1⟩ ∧
    BillController.parseOrderStr "0 dosa" [⟨"Dosa", "தோசை", 30⟩] =
      [⟨"Dosa", 1, 30, 30⟩] :=
  ⟨detect_pos, fun _ _ _ h => parse_line_pos_bc h, fun _ _ _ h => parse_line_pos_sim h,
   by decide, by decide⟩

/-- Witness for C10 at a concrete parse: the line emitted for "0 dosa" is in
the output and has quantity at least 1. -/
theorem claim_C10_witness :
    1 ≤ (detectQuantityNear (strUnits "0 dosa") 2 []).quantity ∧
    (⟨"Dosa", 1, 30, 30⟩ : OrderLine) ∈
      BillController.parseOrderWithFuzzyMap (.str "0 dosa") [⟨"Dosa", "தோசை", 30⟩] ∧
    1 ≤ (⟨"Dosa", 1, 30, 30⟩ : OrderLine).quantity :=
  ⟨claim_C10_positive_quantity.1 _ _ _, by decide,
   claim_C10_positive_quantity.2.1 (.str "0 dosa") [⟨"Dosa", "தோசை", 30⟩]
     ⟨"Dosa", 1, 30, 30⟩ (by decide)⟩
